import Mathlib

/-!
Shallow embedding of `src/api/post.rs` from the bahamut-tui repository:
the URL parameter parser, the paginated `PostPage` resource, and the
content-extraction engine (`Post`, `PostContent`), together with the small
amount of surrounding module code (`CachedPage::get`, `DN`, `WebSite`,
`User`) that is referenced from `post.rs` but lives outside the provided
sources and is therefore modelled from the specification.

Rust panics (`unwrap` on `None`/`Err`) are modelled explicitly by the
`PRes` result type, so that "aborts with a typed error" and "panics" are
distinguishable outcomes.
-/

namespace Bahamut

/-- Result of running a piece of Rust code that may panic: `panic` models a
Rust `panic!` (from `unwrap`/`expect`), `ok a` a normal return of `a`. -/
inductive PRes (α : Type) where
  | panic : PRes α
  | ok : α → PRes α
deriving DecidableEq, Repr

/-- True iff the computation panicked. -/
def PRes.isPanic {α : Type} : PRes α → Bool
  | .panic => true
  | .ok _ => false

mutual
/-- An HTML DOM node as seen by the `scraper` crate: either a text node or
an element with a tag name, a class list, an attribute list and children.
(`NodeList` is a specialised list so that structural recursion over the
tree is available.) -/
inductive Node where
  | text : String → Node
  | elem : String → List String → List (String × String) → NodeList → Node
/-- A list of sibling `Node`s. -/
inductive NodeList where
  | nil : NodeList
  | cons : Node → NodeList → NodeList
end

/-- Build a `NodeList` from an ordinary list (convenience for examples). -/
def nlist : List Node → NodeList
  | [] => .nil
  | n :: rest => .cons n (nlist rest)

/-- The value of attribute `a` on an element node (`none` on text nodes or
when the attribute is absent), mirroring `ElementRef::value().attr(a)`. -/
def attrOf (n : Node) (a : String) : Option String :=
  match n with
  | .text _ => none
  | .elem _ _ attrs _ => (attrs.find? (fun kv => kv.1 == a)).map (·.2)

mutual
/-- All descendant text-node contents of a node in document order,
mirroring the scraper `ElementRef::text()` iterator (one string per text
node). -/
def Node.texts : Node → List String
  | .text s => [s]
  | .elem _ _ _ children => NodeList.textsList children
/-- Function `Node.texts` over a list of siblings. -/
def NodeList.textsList : NodeList → List String
  | .nil => []
  | .cons c rest => Node.texts c ++ NodeList.textsList rest
end

/-- A simple CSS selector component: optional tag name, required classes,
optional required-attribute name (for `[id]`). -/
structure SimpleSel where
  tag : Option String
  classes : List String
  hasAttr : Option String
deriving DecidableEq, Repr

/-- A compound selector with descendant combinators: the subject component
plus the ancestor components, nearest to the subject first (so
`.video-youtube iframe` is `⟨iframe-component, [video-youtube-component]⟩`). -/
structure Sel where
  subject : SimpleSel
  ancestors : List SimpleSel
deriving DecidableEq, Repr

/-- Does a single selector component match a node? -/
def simpleMatches (s : SimpleSel) (n : Node) : Bool :=
  match n with
  | .text _ => false
  | .elem tag classes attrs _ =>
    (match s.tag with
     | none => true
     | some t => tag == t) &&
    s.classes.all (fun c => classes.contains c) &&
    (match s.hasAttr with
     | none => true
     | some a => attrs.any (fun kv => kv.1 == a))

/-- Does the given ancestor chain (nearest ancestor first) contain a
subsequence matching the ancestor components of a selector, in order? -/
def chainMatch : List SimpleSel → List Node → Bool
  | [], _ => true
  | _ :: _, [] => false
  | s :: ss, a :: more =>
    (simpleMatches s a && chainMatch ss more) || chainMatch (s :: ss) more

/-- Full selector match of a node given its ancestor chain. -/
def nodeMatches (sel : Sel) (ancs : List Node) (n : Node) : Bool :=
  simpleMatches sel.subject n && chainMatch sel.ancestors ancs

/-- A node together with its ancestor chain (nearest first) inside the
document it was selected from — the information the scraper `ElementRef`
carries for selector matching. -/
abbrev NodeC := Node × List Node

mutual
/-- All proper descendants of a node matching `sel`, in document order,
each with its ancestor chain; `ancs` is the chain above the node itself.
Mirrors `ElementRef::select` (the node itself is not a candidate). -/
def selPAux (sel : Sel) (ancs : List Node) : Node → List NodeC
  | .text _ => []
  | .elem t cs as ch => selPList sel (Node.elem t cs as ch :: ancs) ch
/-- Function `selPAux` over a list of siblings, testing each sibling itself too. -/
def selPList (sel : Sel) (ancs : List Node) : NodeList → List NodeC
  | .nil => []
  | .cons c rest =>
    (if nodeMatches sel ancs c then [(c, ancs)] else []) ++
      selPAux sel ancs c ++ selPList sel ancs rest
end

/-- Method `select` on an element-with-context, as used throughout `post.rs`. -/
def NodeC.select (nc : NodeC) (sel : Sel) : List NodeC :=
  selPAux sel nc.2 nc.1

/-- Selector `.c-article__content` (reply body container). -/
def contentSel : Sel := ⟨⟨none, ["c-article__content"], none⟩, []⟩

/-- Selector `div` (nested rich-content children probe). -/
def divSel : Sel := ⟨⟨some "div", [], none⟩, []⟩

/-- Selector `.video-youtube iframe` (video embed marker). -/
def ytSel : Sel := ⟨⟨some "iframe", [], none⟩, [⟨none, ["video-youtube"], none⟩]⟩

/-- Selector `a img` (image wrapped in a link). -/
def imgSel : Sel := ⟨⟨some "img", [], none⟩, [⟨some "a", [], none⟩]⟩

/-- Selector `.floor` (floor marker node). -/
def floorSel : Sel := ⟨⟨none, ["floor"], none⟩, []⟩

/-- Selector `.edittime` (edit-date node). -/
def edittimeSel : Sel := ⟨⟨none, ["edittime"], none⟩, []⟩

/-- Selector `.c-post__header__title` (thread title node). -/
def titleSel : Sel := ⟨⟨none, ["c-post__header__title"], none⟩, []⟩

/-- Selector `.c-section[id]` (reply block root). -/
def csectionSel : Sel := ⟨⟨none, ["c-section"], some "id"⟩, []⟩

/-- Selector `.BH-pagebtnA a` (pagination-control links). -/
def pagebtnSel : Sel := ⟨⟨some "a", [], none⟩, [⟨none, ["BH-pagebtnA"], none⟩]⟩

/-- Rust `str::parse::<u16>()` semantics: an optional leading `+`, then one or more
decimal digits, value below 2^16; anything else fails. -/
def parseU16 (s : String) : Option Nat :=
  let cs :=
    match s.data with
    | '+' :: rest => rest
    | cs => cs
  if cs.isEmpty then none
  else if cs.all Char.isDigit then
    let v := cs.foldl (fun a c => a * 10 + (c.toNat - 48)) 0
    if v < 65536 then some v else none
  else none

/-- Alias `pub type PostDescription = Vec<String>` from `post.rs`. -/
abbrev PostDescription := List String

/-- Modelled from the spec: the opaque author record produced by the
external User Extractor (`src/api/user.rs` is not among the provided
sources; the spec treats the author as an opaque record). -/
structure User where
  name : String
deriving DecidableEq, Repr

/-- Structure `PostComment` from `post.rs` (declared but never populated). -/
structure PostComment where
  name : String
  comment : String
  id : String
deriving DecidableEq, Repr

/-- Structure `PostContent` from `post.rs`: the description tokens of one
reply, its author, floor and edit date. -/
structure PostContent where
  desc : PostDescription
  user : User
  floor : Nat
  date : String
deriving DecidableEq, Repr

/-- Structure `Post` from `post.rs`: thread id, title, replies, last-requested floor. -/
structure Post where
  id : String
  title : String
  posts : List PostContent
  floor : Nat
deriving DecidableEq, Repr

/-- Method `CommentReadable::comment` for `PostContent`: the stub that always
returns the empty vector. -/
def PostContent.comment (_ : PostContent) : List PostComment := []

/-- A parsed URL reduced to what `post.rs` consumes of the url crate
type `Url`: the decoded query pairs in order (`Url::query_pairs()`). -/
structure UrlV where
  query : List (String × String)
deriving DecidableEq, Repr

/-- Structure `WebSite` from the api module root: the fetched document together with
the URL it came from (its shape is fixed by the destructuring
of `web` into `url` and `document` in `post.rs`). -/
structure WebSite where
  url : UrlV
  document : Node

/-- The per-`div`-child classifier inside `PostContent::try_desc_from_html`
(the inner `filter_map` closure): youtube iframe first (missing `data-src`
drops the child via `?`), then linked images (one token per `a img` match,
`data-src` unwrapped — a missing attribute panics), then the concatenated
text fallback. `ok none` means the child is dropped by `filter_map`. -/
def childTokens (nc : NodeC) : PRes (Option (List String)) :=
  match nc.select ytSel with
  | y :: _ =>
    match attrOf y.1 "data-src" with
    | some s => .ok (some [s])
    | none => .ok none
  | [] =>
    match nc.select imgSel with
    | [] => .ok (some [String.join nc.1.texts])
    | imgs =>
      if imgs.all (fun i => (attrOf i.1 "data-src").isSome) then
        .ok (some (imgs.filterMap (fun i => attrOf i.1 "data-src")))
      else .panic

/-- Flatten `childTokens` over the `div` descendants of a wrapper,
propagating panics, mirroring `.filter_map(..).flatten()`. -/
def childListTokens : List NodeC → PRes (List String)
  | [] => .ok []
  | c :: rest =>
    match childTokens c with
    | .panic => .panic
    | .ok none => childListTokens rest
    | .ok (some ts) =>
      match childListTokens rest with
      | .panic => .panic
      | .ok more => .ok (ts ++ more)

/-- The per-wrapper closure of `try_desc_from_html` (the outer
`filter_map` over `.c-article__content` matches): with no `div` descendant
(`is_pure_text`) it collects `el.text()` into a `Vec<String>` — one token
per text node; otherwise it classifies each `div` descendant. -/
def wrapperTokens (nc : NodeC) : PRes (List String) :=
  let content := nc.select divSel
  if content.isEmpty then .ok nc.1.texts
  else childListTokens content

/-- Flatten `wrapperTokens` over a list of wrappers, propagating panics. -/
def wrapperListTokens : List NodeC → PRes (List String)
  | [] => .ok []
  | w :: rest =>
    match wrapperTokens w with
    | .panic => .panic
    | .ok ts =>
      match wrapperListTokens rest with
      | .panic => .panic
      | .ok more => .ok (ts ++ more)

/-- Method `PostContent::try_desc_from_html`: tokens of all `.c-article__content`
wrappers under the reply block, flattened; always `Some` when it does not
panic. -/
def try_desc_from_html (nc : NodeC) : PRes (Option PostDescription) :=
  match wrapperListTokens (nc.select contentSel) with
  | .panic => .panic
  | .ok ts => .ok (some ts)

/-- Method `PostContent::try_floor_from_html`: `select(".floor").next().unwrap()`
(panic when absent), `.attr("data-floor").unwrap()` (panic when absent),
then `parse::<u16>().map_or(0, ...)` — parse failure coerces to 0. -/
def try_floor_from_html (nc : NodeC) : PRes (Option Nat) :=
  match nc.select floorSel with
  | [] => .panic
  | f :: _ =>
    match attrOf f.1 "data-floor" with
    | none => .panic
    | some s => .ok (some ((parseU16 s).getD 0))

/-- Method `PostContent::try_date_from_html`: first text node of the first
`.edittime` match; `?` at both steps, so no panic is possible. -/
def try_date_from_html (nc : NodeC) : Option String :=
  match nc.select edittimeSel with
  | [] => none
  | d :: _ => d.1.texts.head?

/-- Method `Post::try_title_from_html`: concatenated text of the first
`.c-post__header__title` match under the first reply block. -/
def try_title_from_html (nc : NodeC) : Option String :=
  match nc.select titleSel with
  | [] => none
  | t :: _ => some (String.join t.1.texts)

/-- Method `Post::try_id_from_url`: value of the first `snA` query pair. -/
def try_id_from_url (url : UrlV) : Option String :=
  (url.query.find? (fun kv => kv.1 == "snA")).map (·.2)

/-- Method `Post::try_last_floor_from_url`: value of the first `tnum` query pair,
absent ⇒ `None`, present ⇒ `parse().unwrap()` — a non-numeric value
panics. -/
def try_last_floor_from_url (url : UrlV) : PRes (Option Nat) :=
  match url.query.find? (fun kv => kv.1 == "tnum") with
  | none => .ok none
  | some kv =>
    match parseU16 kv.2 with
    | none => .panic
    | some v => .ok (some v)

/-- The body of the `filter_map` closure in `Post::posts`: build a
`PostContent` from one reply block, evaluating `desc`, `user`, `floor`,
`date` in that order with `?` on each; `ok none` means the block is
dropped. `userExtract` stands for the external `User::try_from(&dom)`
(`src/api/user.rs` is not among the provided sources), with a `None`
result dropping the block via `.map_or(None, ..)?`. -/
def blockContent (userExtract : NodeC → Option User) (nc : NodeC) :
    PRes (Option PostContent) :=
  match try_desc_from_html nc with
  | .panic => .panic
  | .ok none => .ok none
  | .ok (some desc) =>
    match userExtract nc with
    | none => .ok none
    | some u =>
      match try_floor_from_html nc with
      | .panic => .panic
      | .ok none => .ok none
      | .ok (some fl) =>
        match try_date_from_html nc with
        | none => .ok none
        | some d => .ok (some ⟨desc, u, fl, d⟩)

/-- The `filter_map` and `collect` loop over reply blocks, propagating
panics. -/
def collectBlocks (userExtract : NodeC → Option User) :
    List NodeC → PRes (List PostContent)
  | [] => .ok []
  | b :: rest =>
    match blockContent userExtract b with
    | .panic => .panic
    | .ok none => collectBlocks userExtract rest
    | .ok (some pc) =>
      match collectBlocks userExtract rest with
      | .panic => .panic
      | .ok more => .ok (pc :: more)

/-- The reply blocks of a document: `document.select(".c-section[id]")`
from the root element. -/
def replyBlocks (document : Node) : List NodeC :=
  selPAux csectionSel [] document

/-- Method `Post::posts`: every reply block, filtered through `blockContent`. -/
def Post.postsOf (userExtract : NodeC → Option User) (document : Node) :
    PRes (List PostContent) :=
  collectBlocks userExtract (replyBlocks document)

/-- The apostrophe character by code point, so the literal error strings
of `post.rs` can be written without a bare apostrophe character. -/
def apos : String := (Char.ofNat 39).toString

/-- Error string of the `WebSite` conversion when the thread id is missing
from the URL (the source spells it with an apostrophe). -/
def errCantGetId : String := "can" ++ apos ++ "t get id"

/-- Error string of the `WebSite` conversion when the last-requested floor
is missing from the URL (the source spells it with an apostrophe). -/
def errCantGetLastFloor : String := "can" ++ apos ++ "t get last floor"

/-- Conversion `TryFrom<WebSite> for Post`: `select(..).next().unwrap()` on the first
reply block (panic when the document has none), then the `id` / `floor` /
`title` / `posts` fields in source order, the first three with `ok_or(..)?`
typed errors. -/
def postTryFromWebSite (userExtract : NodeC → Option User) (web : WebSite) :
    PRes (Except String Post) :=
  match replyBlocks web.document with
  | [] => .panic
  | top :: _ =>
    match try_id_from_url web.url with
    | none => .ok (.error errCantGetId)
    | some id =>
      match try_last_floor_from_url web.url with
      | .panic => .panic
      | .ok none => .ok (.error errCantGetLastFloor)
      | .ok (some fl) =>
        match try_title_from_html top with
        | none => .ok (.error "post title invalid")
        | some title =>
          match Post.postsOf userExtract web.document with
          | .panic => .panic
          | .ok ps => .ok (.ok ⟨id, title, ps, fl⟩)

/-- Structure `PostPageUrlParameter` from `post.rs`. -/
structure PostPageUrlParameter where
  board_id : String
  id : String
  floor : Nat
deriving DecidableEq, Repr

/-- Value `Default::default()` for `PostPageUrlParameter`. -/
def PostPageUrlParameter.default : PostPageUrlParameter := ⟨"", "", 0⟩

/-- One step of the `query_pairs().for_each(..)` loop in
`TryFrom<Url> for PostPageUrlParameter`: the three `if`s in source order,
`tnum` parsed with `parse::<u16>().map_or(0, ..)`. -/
def PostPageUrlParameter.step (acc : PostPageUrlParameter)
    (kv : String × String) : PostPageUrlParameter :=
  let acc := if kv.1 == "snA" then { acc with id := kv.2 } else acc
  let acc := if kv.1 == "bsn" then { acc with board_id := kv.2 } else acc
  if kv.1 == "tnum" then { acc with floor := (parseU16 kv.2).getD 0 } else acc

/-- Conversion `TryFrom<Url> for PostPageUrlParameter`: folds the query pairs over a
default record and always returns `Ok`. -/
def PostPageUrlParameter.try_from_url (url : UrlV) :
    Except String PostPageUrlParameter :=
  .ok (url.query.foldl PostPageUrlParameter.step PostPageUrlParameter.default)

/-- Conversion `TryFrom<String> for PostPageUrlParameter`: `Url::parse` (abstracted as
`parseUrl`, the url crate parser — `none` exactly on syntactically
invalid URL strings) with error `"invalid url string"`, then the `Url`
conversion with its error mapped to `""`. -/
def PostPageUrlParameter.try_from_string (parseUrl : String → Option UrlV)
    (s : String) : Except String PostPageUrlParameter :=
  match parseUrl s with
  | none => .error "invalid url string"
  | some url =>
    match PostPageUrlParameter.try_from_url url with
    | .ok v => .ok v
    | .error _ => .error ""

/-- Structure `PostPage` from `post.rs`; the `HashMap<u16, Option<Post>>` cache is
modelled as an association list with overwrite-on-insert. -/
structure PostPage where
  board_id : String
  id : String
  page : Nat
  max : Nat
  floor : Nat
  cache : List (Nat × Option Post)
deriving DecidableEq, Repr

/-- Constructor `PostPage::new`. -/
def PostPage.new (board_id : String) (id : String) : PostPage :=
  ⟨board_id, id, 1, 0, 0, []⟩

/-- Setter `PostPage::floor`. -/
def PostPage.setFloor (s : PostPage) (floor : Nat) : PostPage :=
  { s with floor := floor }

/-- Conversion `TryFrom<PostPageUrlParameter> for PostPage`. -/
def PostPage.try_from_parameter (v : PostPageUrlParameter) :
    Except String PostPage :=
  .ok ((PostPage.new v.board_id v.id).setFloor v.floor)

/-- Method `PostPage::try_page_from_html`: the last `.BH-pagebtnA a` link (`?` on
absence), its first text node (`?` on absence), then `parse().unwrap()` —
a present but non-numeric text panics. -/
def try_page_from_html (nc : NodeC) : PRes (Option Nat) :=
  match (nc.select pagebtnSel).getLast? with
  | none => .ok none
  | some l =>
    match l.1.texts.head? with
    | none => .ok none
    | some t =>
      match parseU16 t with
      | none => .panic
      | some v => .ok (some v)

/-- Method `PostPage::init`, given the document its unconditional fetch of page 1
produced (the fetch itself is `CachedPage::get_page_html`, which is not
among the provided sources; modelled from the spec: `init()` fetches
page 1 unconditionally): `try_page_from_html(..).map_or(0, ..)` becomes
the new `max`. -/
def initMax (document : Node) : PRes Nat :=
  match try_page_from_html (document, []) with
  | .panic => .panic
  | .ok o => .ok (o.getD 0)

/-- Modelled from the spec: `DN`, the process-wide base-domain constant
from the api module root (not among the provided sources); the spec URL
template (the domain followed by `/C.php?..`) together with the format
string in `CachedPage::url` (DN immediately followed by `C.php?..`) fixes
it to the domain including a trailing slash. -/
def DN : String := "https://forum.gamer.com.tw/"

/-- Method `CachedPage::url` for `PostPage`: the URL string built by
`format!` from DN, board_id, id, page and floor, in that order. -/
def PostPage.url (s : PostPage) (page : Nat) : String :=
  DN ++ "C.php?bsn=" ++ s.board_id ++ "&snA=" ++ s.id ++ "&page=" ++
    toString page ++ "&tnum=" ++ toString s.floor

/-- Method `CachedPage::insert_cache` for `PostPage`: `HashMap::insert`
(overwrites an existing entry for the key). -/
def PostPage.insert_cache (s : PostPage) (p : Nat) (v : Option Post) :
    PostPage :=
  { s with cache :=
      if s.cache.any (fun e => e.1 == p) then
        s.cache.map (fun e => if e.1 = p then (p, v) else e)
      else (p, v) :: s.cache }

/-- Method `CachedPage::increase_page` for `PostPage`. -/
def PostPage.increase_page (s : PostPage) : PostPage :=
  { s with page := s.page + 1 }

/-- Method `CachedPage::decrease_page` for `PostPage`. -/
def PostPage.decrease_page (s : PostPage) : PostPage :=
  { s with page := s.page - 1 }

/-- Lookup in the association-list model of `HashMap<u16, Option<Post>>`
(`HashMap::get` / `contains_key` by key equality). -/
def cacheLookup (c : List (Nat × Option Post)) (p : Nat) :
    Option (Option Post) :=
  match c with
  | [] => none
  | (k, w) :: t => if p = k then some w else cacheLookup t p

/-- Modelled from the spec: `CachedPage::get` (api module root, not among
the provided sources): "returns the cached value if page is already in the
cache; otherwise invokes the Fetcher on `url_for(page)`, parses the
resulting document into an `Optional<T>`, stores it in the cache under
that page number, and returns it." `fetchParse` abstracts
fetch-then-parse, keyed by page; the returned flag records whether the
Fetcher was invoked. -/
def PostPage.get (fetchParse : Nat → Option Post) (s : PostPage) (p : Nat) :
    Option Post × PostPage × Bool :=
  match cacheLookup s.cache p with
  | some v => (v, s, false)
  | none =>
    let obj := fetchParse p
    (obj, s.insert_cache p obj, true)

/-- An operation against a `PostPage` resource: a `get`, or the bare
navigation moves `increase_page` / `decrease_page`. -/
inductive Op where
  | get : Nat → Op
  | inc : Op
  | dec : Op
deriving DecidableEq, Repr

/-- Run a sequence of operations, returning the final state and the list
of page numbers for which the Fetcher was invoked, in order. -/
def runOps (fetchParse : Nat → Option Post) :
    List Op → PostPage → PostPage × List Nat
  | [], s => (s, [])
  | .get q :: rest, s =>
    let r := PostPage.get fetchParse s q
    let out := runOps fetchParse rest r.2.1
    (out.1, (if r.2.2 then [q] else []) ++ out.2)
  | .inc :: rest, s => runOps fetchParse rest s.increase_page
  | .dec :: rest, s => runOps fetchParse rest s.decrease_page

/-- Structure `PostPageRef` from `post.rs`. -/
structure PostPageRef where
  board_id : String
  id : String
  page : Nat
  max : Nat
  floor : Nat
deriving DecidableEq, Repr

/-- Conversion `TryFrom<&PostPage> for PostPageRef`: always Ok; note that the `max`
field is filled from `value.page`, not `value.max`. -/
def PostPageRef.try_from (v : PostPage) : Except String PostPageRef :=
  .ok ⟨v.board_id, v.id, v.page, v.page, v.floor⟩

/-- The contribution of one reply block to the reply list: `none` when the
block is dropped (and, conventionally, when it panicked). -/
def okOrNone {α : Type} : PRes (Option α) → Option α
  | .panic => none
  | .ok o => o

/-!  Concrete example inputs used by counterexamples and witnesses. -/

/-- Example wrapper with two text nodes and no `div` descendant. -/
def exWrapper : Node :=
  .elem "div" ["c-article__content"] []
    (nlist [.text "a", .elem "span" [] [] (nlist [.text "b"])])

/-- Example wrapper with a single text node and no `div` descendant. -/
def exWrapperOne : Node :=
  .elem "div" ["c-article__content"] [] (nlist [.text "hi"])

/-- Example iframe with no `data-src` attribute. -/
def exIframeBare : Node := .elem "iframe" [] [] (nlist [])

/-- Example `.video-youtube` container holding the bare iframe. -/
def exVideoDivBare : Node :=
  .elem "div" ["video-youtube"] [] (nlist [exIframeBare])

/-- Example image with a `data-src` attribute. -/
def exImg : Node := .elem "img" [] [("data-src", "http://i")] (nlist [])

/-- Example link wrapping `exImg`. -/
def exAnchor : Node := .elem "a" [] [] (nlist [exImg])

/-- Example rich-content child holding a sourceless video embed and a
linked image with a source. -/
def exChildVidNoSrc : Node :=
  .elem "div" [] [] (nlist [exVideoDivBare, exAnchor])

/-- Example iframe with a `data-src` attribute. -/
def exIframeSrc : Node :=
  .elem "iframe" [] [("data-src", "http://v")] (nlist [])

/-- Example `.video-youtube` container holding the sourced iframe. -/
def exVideoDiv : Node := .elem "div" ["video-youtube"] [] (nlist [exIframeSrc])

/-- Example rich-content child holding a sourced video embed and a linked
image. -/
def exChildVid : Node := .elem "div" [] [] (nlist [exVideoDiv, exAnchor])

/-- Second example image with a `data-src` attribute. -/
def exImg2 : Node := .elem "img" [] [("data-src", "http://i2")] (nlist [])

/-- Example link wrapping `exImg2`. -/
def exAnchor2 : Node := .elem "a" [] [] (nlist [exImg2])

/-- Example rich-content child holding two linked images. -/
def exChildImgs : Node := .elem "div" [] [] (nlist [exAnchor, exAnchor2])

/-- Example pagination link with numeric text. -/
def exPageLink (k : Nat) : Node :=
  .elem "a" [] [] (nlist [.text (toString k)])

/-- Example pagination control listing links 1 to 7. -/
def exPagebtn : Node :=
  .elem "div" ["BH-pagebtnA"] []
    (nlist ((List.range 7).map (fun i => exPageLink (i + 1))))

/-- Example document whose pagination control lists links 1 to 7. -/
def exPageDoc : Node := .elem "html" [] [] (nlist [exPagebtn])

/-- Example pagination link with non-numeric text. -/
def exBadLink : Node := .elem "a" [] [] (nlist [.text "abc"])

/-- Example pagination control with the non-numeric link. -/
def exBadBtn : Node := .elem "div" ["BH-pagebtnA"] [] (nlist [exBadLink])

/-- Example document whose last pagination link has non-numeric text. -/
def exBadPageDoc : Node := .elem "html" [] [] (nlist [exBadBtn])

/-- Example pagination link with no text node at all. -/
def exNoTextLink : Node := .elem "a" [] [] (nlist [])

/-- Example pagination control with the textless link. -/
def exNoTextBtn : Node := .elem "div" ["BH-pagebtnA"] [] (nlist [exNoTextLink])

/-- Example document whose last pagination link has no text. -/
def exNoTextDoc : Node := .elem "html" [] [] (nlist [exNoTextBtn])

/-- Example document with no pagination control. -/
def exEmptyDoc : Node := .elem "html" [] [] (nlist [])

/-- Example floor marker with numeric `data-floor`. -/
def exFloorMarker : Node :=
  .elem "div" ["floor"] [("data-floor", "2")] (nlist [])

/-- Example floor marker with non-numeric `data-floor`. -/
def exFloorZZ : Node := .elem "div" ["floor"] [("data-floor", "zz")] (nlist [])

/-- Example title node. -/
def exTitleNode : Node :=
  .elem "div" ["c-post__header__title"] [] (nlist [.text "TITLE"])

/-- Example edit-date node. -/
def exDateNode : Node :=
  .elem "div" ["edittime"] [] (nlist [.text "2024-01-01"])

/-- Example reply body container with plain text. -/
def exContentNode : Node :=
  .elem "div" ["c-article__content"] [] (nlist [.text "hello"])

/-- Example fully derivable reply block. -/
def exGoodBlock : Node :=
  .elem "section" ["c-section"] [("id", "p1")]
    (nlist [exTitleNode, exFloorMarker, exContentNode, exDateNode])

/-- Example reply block whose body holds a linked image without
`data-src` (description derivation panics on it). -/
def exBadImgBlock : Node :=
  .elem "section" ["c-section"] [("id", "p2")]
    (nlist [exFloorMarker,
      .elem "div" ["c-article__content"] []
        (nlist [.elem "div" [] []
          (nlist [.elem "a" [] [] (nlist [.elem "img" [] [] (nlist [])])])]),
      exDateNode])

/-- Example reply block with no edit-date node. -/
def exNoDateBlock : Node :=
  .elem "section" ["c-section"] [("id", "p3")]
    (nlist [exFloorMarker, exContentNode])

/-- Example reply block with no floor marker at all. -/
def exNoFloorBlock : Node :=
  .elem "section" ["c-section"] [("id", "p4")] (nlist [])

/-- Example reply block whose floor marker has non-numeric data. -/
def exBlockZZ : Node :=
  .elem "section" ["c-section"] [("id", "p5")] (nlist [exFloorZZ])

/-- Example user extractor that always succeeds. -/
def exUser : NodeC → Option User := fun _ => some ⟨"u"⟩

/-- Example document holding a good and a description-panicking block. -/
def exDocMixed : Node := .elem "html" [] [] (nlist [exGoodBlock, exBadImgBlock])

/-- Example document holding only the good block. -/
def exDocGood : Node := .elem "html" [] [] (nlist [exGoodBlock])

/-- Example document holding a date-less block and a good block. -/
def exDocDrop : Node := .elem "html" [] [] (nlist [exNoDateBlock, exGoodBlock])

/-- Example document holding only the floor-less block. -/
def exDocNoFloor : Node := .elem "html" [] [] (nlist [exNoFloorBlock])

/-- Example URL value with a present but non-numeric `tnum`. -/
def exUrlBad : UrlV := ⟨[("bsn", "1"), ("snA", "2"), ("tnum", "abc")]⟩

/-- Example URL value with all three parameters well formed. -/
def exUrlGood : UrlV := ⟨[("bsn", "1"), ("snA", "2"), ("tnum", "5")]⟩

/-- Example `WebSite` pairing the bad URL with the good document. -/
def exWebBad : WebSite := ⟨exUrlBad, exDocGood⟩

/-- Example `WebSite` pairing the good URL with the good document. -/
def exWebGood : WebSite := ⟨exUrlGood, exDocGood⟩

/-- Example URL value with no `bsn` pair. -/
def exNoBsn : UrlV := ⟨[("snA", "200"), ("tnum", "5")]⟩

/-- Example URL value with no `snA` pair. -/
def exNoSnA : UrlV := ⟨[("bsn", "100")]⟩

/-- Example URL value whose only `tnum` pair is non-numeric. -/
def exBadTnum : UrlV := ⟨[("tnum", "xy"), ("bsn", "9")]⟩

/-- Example abstract URL parser that rejects every string. -/
def exParseNone : String → Option UrlV := fun _ => none

/-- Example cached post for the pagination claims. -/
def exPost : Post := ⟨"i", "t", [], 0⟩

/-- Example `PostPage` whose cache already holds page 2. -/
def exPage : PostPage :=
  { PostPage.new "b" "t" with cache := [(2, some exPost)] }

/-- Example operation sequence: gets and navigation around page 2. -/
def exOps : List Op := [.get 1, .inc, .get 2, .dec, .get 1]

/-- Example fetcher-and-parser that always yields an empty page. -/
def exFetch : Nat → Option Post := fun _ => none

/-- Example `PostPage` for the URL claim. -/
def exPageA : PostPage := ⟨"60076", "123", 1, 0, 7, []⟩

/-- Example `PostPage` agreeing with `exPageA` on board, thread and floor
but differing in current page, max and cache. -/
def exPageB : PostPage := ⟨"60076", "123", 5, 9, 7, [(1, none)]⟩

/-!  Claim theorems. -/

/-- C3 counterexample: the wrapper `exWrapper` has no `div` descendant and
two text nodes; the token algorithm emits the two tokens a and b — one per
text node — and not one token equal to the concatenated text ab, refuting
the claim that such a wrapper yields exactly one token equal to the
concatenation of all its text. -/
theorem c3_counterexample :
    (NodeC.select (exWrapper, []) divSel).length = 0 ∧
    wrapperTokens (exWrapper, []) = .ok ["a", "b"] ∧
    String.join (Node.texts exWrapper) = "ab" ∧
    wrapperTokens (exWrapper, []) ≠ .ok ["ab"] := by
  refine ⟨rfl, rfl, rfl, ?_⟩
  intro h
  rw [show wrapperTokens (exWrapper, ([] : List Node)) = .ok ["a", "b"]
    from rfl] at h
  simp at h

/-- C3 (amended): a paragraph-level wrapper with no nested `div` element
emits one token per text node of the wrapper, in document order (so the
concatenation of the emitted tokens is the concatenation of all the
wrapper text, and a wrapper with a single text node emits exactly one
token equal to that text). -/
theorem c3_wrapper_tokens (nc : NodeC)
    (h : (nc.select divSel).isEmpty = true) :
    wrapperTokens nc = .ok nc.1.texts ∧
    ∀ s, nc.1.texts = [s] → wrapperTokens nc = .ok [s] := by
  constructor
  · unfold wrapperTokens
    simp [h]
  · intro s hs
    unfold wrapperTokens
    simp [h, hs]

/-- C3 witness: the amended claim evaluated on the single-text wrapper. -/
theorem c3_witness :
    wrapperTokens (exWrapperOne, []) = .ok (Node.texts exWrapperOne) ∧
    ∀ s, Node.texts exWrapperOne = [s] →
      wrapperTokens (exWrapperOne, []) = .ok [s] :=
  c3_wrapper_tokens (exWrapperOne, []) rfl

/-- C4 counterexample: `exNoFloorBlock` is a genuine reply block (it is
selected by the reply-block selector) with no floor marker node, and floor
derivation panics on it — refuting the claim that deriving the floor never
aborts. -/
theorem c4_counterexample :
    replyBlocks exDocNoFloor = [(exNoFloorBlock, [exDocNoFloor])] ∧
    try_floor_from_html (exNoFloorBlock, [exDocNoFloor]) = PRes.panic :=
  ⟨rfl, rfl⟩

/-- C4 (amended): when the reply block carries a `.floor` marker node with
a `data-floor` attribute, floor derivation never fails: the parsed value
is used and a parse failure coerces to 0; but a block with no marker node,
or whose first marker lacks the attribute, panics. -/
theorem c4_floor_derivation (nc f : NodeC) (fs : List NodeC) (s : String)
    (h1 : nc.select floorSel = f :: fs)
    (h2 : attrOf f.1 "data-floor" = some s) :
    try_floor_from_html nc = .ok (some ((parseU16 s).getD 0)) ∧
    (parseU16 s = none → try_floor_from_html nc = .ok (some 0)) ∧
    (∀ nc2 : NodeC, nc2.select floorSel = [] →
      try_floor_from_html nc2 = PRes.panic) ∧
    (∀ (nc3 g : NodeC) (gs : List NodeC), nc3.select floorSel = g :: gs →
      attrOf g.1 "data-floor" = none →
      try_floor_from_html nc3 = PRes.panic) := by
  refine ⟨?_, ?_, ?_, ?_⟩
  · simp [try_floor_from_html, h1, h2]
  · intro hp
    simp [try_floor_from_html, h1, h2, hp]
  · intro nc2 h
    simp [try_floor_from_html, h]
  · intro nc3 g gs hg ha
    simp [try_floor_from_html, hg, ha]

/-- C4 witness: the amended claim evaluated on the block whose marker has
the non-numeric value zz, which coerces to floor 0. -/
theorem c4_witness :
    try_floor_from_html (exBlockZZ, []) = .ok (some ((parseU16 "zz").getD 0)) ∧
    (parseU16 "zz" = none → try_floor_from_html (exBlockZZ, []) = .ok (some 0)) ∧
    (∀ nc2 : NodeC, nc2.select floorSel = [] →
      try_floor_from_html nc2 = PRes.panic) ∧
    (∀ (nc3 g : NodeC) (gs : List NodeC), nc3.select floorSel = g :: gs →
      attrOf g.1 "data-floor" = none →
      try_floor_from_html nc3 = PRes.panic) :=
  c4_floor_derivation (exBlockZZ, []) (exFloorZZ, [exBlockZZ]) [] "zz" rfl rfl

/-- C5 counterexample: a document whose last pagination link has the
non-numeric text abc makes `init` panic instead of leaving `max_page` at
0 — refuting the claim that an unparsable last link keeps max at 0. -/
theorem c5_counterexample :
    initMax exBadPageDoc = PRes.panic ∧
    initMax exBadPageDoc ≠ .ok 0 := by
  refine ⟨rfl, ?_⟩
  intro h
  rw [show initMax exBadPageDoc = PRes.panic from rfl] at h
  simp at h

/-- C5 (amended): after `init`, `max` equals the number parsed from the
first text of the last pagination link; if the control is absent, or the
last link has no text node, `max` stays 0; if the last link has text that
does not parse as a u16 number, `init` panics. -/
theorem c5_init_max (d1 d2 d3 d4 : Node) (l2 l3 l4 : NodeC)
    (t2 t4 : String) (n : Nat)
    (h1 : selPAux pagebtnSel [] d1 = [])
    (h2a : (selPAux pagebtnSel [] d2).getLast? = some l2)
    (h2b : (Node.texts l2.1).head? = some t2)
    (h2c : parseU16 t2 = some n)
    (h3a : (selPAux pagebtnSel [] d3).getLast? = some l3)
    (h3b : (Node.texts l3.1).head? = none)
    (h4a : (selPAux pagebtnSel [] d4).getLast? = some l4)
    (h4b : (Node.texts l4.1).head? = some t4)
    (h4c : parseU16 t4 = none) :
    initMax d1 = .ok 0 ∧ initMax d2 = .ok n ∧ initMax d3 = .ok 0 ∧
    initMax d4 = PRes.panic := by
  refine ⟨?_, ?_, ?_, ?_⟩
  · simp [initMax, try_page_from_html, NodeC.select, h1]
  · simp [initMax, try_page_from_html, NodeC.select, h2a, h2b, h2c]
  · simp [initMax, try_page_from_html, NodeC.select, h3a, h3b]
  · simp [initMax, try_page_from_html, NodeC.select, h4a, h4b, h4c]

/-- C5 witness: the amended claim evaluated on the four example documents;
in particular the document listing links 1 to 7 yields max 7. -/
theorem c5_witness :
    initMax exEmptyDoc = .ok 0 ∧ initMax exPageDoc = .ok 7 ∧
    initMax exNoTextDoc = .ok 0 ∧ initMax exBadPageDoc = PRes.panic :=
  c5_init_max exEmptyDoc exPageDoc exNoTextDoc exBadPageDoc
    (exPageLink 7, [exPagebtn, exPageDoc])
    (exNoTextLink, [exNoTextBtn, exNoTextDoc])
    (exBadLink, [exBadBtn, exBadPageDoc]) "7" "abc" 7
    rfl rfl rfl rfl rfl rfl rfl rfl rfl

/-- C7 counterexample: `exChildVidNoSrc` contains a video-embed iframe
(without a declared source) together with a linked image that does have a
declared source; the classifier emits no token at all — neither one video
token nor one image token — refuting the claimed case split. -/
theorem c7_counterexample :
    (NodeC.select (exChildVidNoSrc, []) ytSel).length = 1 ∧
    attrOf exImg "data-src" = some "http://i" ∧
    (NodeC.select (exChildVidNoSrc, []) imgSel).length = 1 ∧
    childTokens (exChildVidNoSrc, []) = .ok none :=
  ⟨rfl, rfl, rfl, rfl⟩

/-- C7 (amended): the presence of any video-embed iframe suppresses the
image and text branches: the first such iframe yields exactly one token
equal to its declared source when it has one, and no token at all when it
lacks one; a child with no video-embed iframe whose linked images all
declare sources yields one token per linked image, in document order, each
equal to that image source. -/
theorem c7_classification (nc1 nc2 y i : NodeC) (ys is0 : List NodeC)
    (h1 : nc1.select ytSel = y :: ys)
    (h2 : nc2.select ytSel = [])
    (h3 : nc2.select imgSel = i :: is0)
    (h4 : ((i :: is0).all (fun x => (attrOf x.1 "data-src").isSome)) = true) :
    childTokens nc1 = .ok ((attrOf y.1 "data-src").map (fun s => [s])) ∧
    childTokens nc2 =
      .ok (some ((i :: is0).filterMap (fun x => attrOf x.1 "data-src"))) := by
  constructor
  · cases ha : attrOf y.1 "data-src" <;> simp [childTokens, h1, ha]
  · simp [childTokens, h2, h3, h4]

/-- C7 witness: the amended claim evaluated on a child holding both a
sourced video embed and a linked image (the video wins) and on a child
holding two linked images (two tokens in document order). -/
theorem c7_witness :
    childTokens (exChildVid, []) =
      .ok ((attrOf exIframeSrc "data-src").map (fun s => [s])) ∧
    childTokens (exChildImgs, []) =
      .ok (some (([(exImg, [exAnchor, exChildImgs]),
        (exImg2, [exAnchor2, exChildImgs])] : List NodeC).filterMap
          (fun x => attrOf x.1 "data-src"))) :=
  c7_classification (exChildVid, []) (exChildImgs, [])
    (exIframeSrc, [exVideoDiv, exChildVid])
    (exImg, [exAnchor, exChildImgs]) []
    [(exImg2, [exAnchor2, exChildImgs])] rfl rfl rfl rfl

/-- C9: the URL builder is a pure function of board id, thread id, floor
and requested page — two states agreeing on those fields produce the same
URL string for the same page, regardless of current page, max or cache —
and the string follows the template: domain, then C.php with bsn, snA,
page and tnum query parameters. -/
theorem c9_url_pure (s1 s2 : PostPage) (page : Nat)
    (h1 : s1.board_id = s2.board_id) (h2 : s1.id = s2.id)
    (h3 : s1.floor = s2.floor) :
    PostPage.url s1 page = PostPage.url s2 page ∧
    PostPage.url s1 page = DN ++ "C.php?bsn=" ++ s1.board_id ++ "&snA=" ++
      s1.id ++ "&page=" ++ toString page ++ "&tnum=" ++ toString s1.floor := by
  constructor
  · unfold PostPage.url
    rw [h1, h2, h3]
  · rfl

/-- C9 witness: the URL claim evaluated on two concrete states differing
only in current page, max and cache. -/
theorem c9_witness :
    PostPage.url exPageA 4 = PostPage.url exPageB 4 ∧
    PostPage.url exPageA 4 = DN ++ "C.php?bsn=" ++ exPageA.board_id ++
      "&snA=" ++ exPageA.id ++ "&page=" ++ toString 4 ++ "&tnum=" ++
      toString exPageA.floor :=
  c9_url_pure exPageA exPageB 4 rfl rfl rfl

/-- C10: converting a `PostPage` to a `PostPageRef` always succeeds,
copying board id, thread id, current page and floor, but fills the `max`
field with the current page value instead of the max value. -/
theorem c10_page_ref (v : PostPage) :
    PostPageRef.try_from v =
      .ok ⟨v.board_id, v.id, v.page, v.page, v.floor⟩ ∧
    ∃ r, PostPageRef.try_from v = .ok r ∧ r.board_id = v.board_id ∧
      r.id = v.id ∧ r.page = v.page ∧ r.floor = v.floor ∧ r.max = v.page :=
  ⟨rfl, ⟨v.board_id, v.id, v.page, v.page, v.floor⟩, rfl, rfl, rfl, rfl, rfl, rfl⟩

/-- Overwriting the entry for key `q` leaves lookups of other keys
unchanged. -/
theorem cacheLookup_overwrite_ne (v : Option Post) (p q : Nat) (h : p ≠ q)
    (c : List (Nat × Option Post)) :
    cacheLookup (c.map (fun e => if e.1 = q then (q, v) else e)) p =
      cacheLookup c p := by
  induction c with
  | nil => rfl
  | cons kv t ih =>
    obtain ⟨k, w⟩ := kv
    by_cases hk : k = q
    · subst hk
      rw [List.map_cons,
        show (if (k, w).1 = k then (k, v) else (k, w)) = (k, v) from
          if_pos rfl]
      simp [cacheLookup, h, ih]
    · rw [List.map_cons,
        show (if (k, w).1 = q then (q, v) else (k, w)) = (k, w) from
          if_neg hk]
      simp [cacheLookup, ih]

/-- Overwriting the entry for a key that is present makes that key look up
the new value. -/
theorem cacheLookup_overwrite_eq (v : Option Post) (q : Nat)
    (c : List (Nat × Option Post))
    (h : c.any (fun e => e.1 == q) = true) :
    cacheLookup (c.map (fun e => if e.1 = q then (q, v) else e)) q =
      some v := by
  induction c with
  | nil => simp at h
  | cons kv t ih =>
    obtain ⟨k, w⟩ := kv
    by_cases hk : k = q
    · subst hk
      rw [List.map_cons,
        show (if (k, w).1 = k then (k, v) else (k, w)) = (k, v) from
          if_pos rfl]
      simp [cacheLookup]
    · have hk2 : (k == q) = false := by simpa using hk
      have ht : t.any (fun e => e.1 == q) = true := by
        simpa [List.any_cons, hk2] using h
      rw [List.map_cons,
        show (if (k, w).1 = q then (q, v) else (k, w)) = (k, w) from
          if_neg hk]
      simp [cacheLookup, Ne.symm hk, ih ht]

/-- Lookup after `insert_cache`: the inserted page maps to the new value
and every other page keeps its binding. -/
theorem cacheLookup_insert (s : PostPage) (q : Nat) (v : Option Post)
    (p : Nat) :
    cacheLookup (s.insert_cache q v).cache p =
      if p = q then some v else cacheLookup s.cache p := by
  unfold PostPage.insert_cache
  by_cases hany : s.cache.any (fun e => e.1 == q) = true
  · simp only [hany, if_true]
    by_cases hp : p = q
    · subst hp
      rw [if_pos rfl]
      exact cacheLookup_overwrite_eq v p s.cache hany
    · rw [if_neg hp]
      exact cacheLookup_overwrite_ne v p q hp s.cache
  · have hany2 : s.cache.any (fun e => e.1 == q) = false :=
      Bool.eq_false_iff.mpr hany
    simp only [hany2, Bool.false_eq_true, if_false, cacheLookup]

/-- Navigation and gets never disturb a cache entry that is already
present, and never cause the Fetcher to be invoked for its page. -/
theorem runOps_preserves_cache (fetchParse : Nat → Option Post)
    (ops : List Op) (s : PostPage) (p : Nat) (v : Option Post)
    (h : cacheLookup s.cache p = some v) :
    cacheLookup (runOps fetchParse ops s).1.cache p = some v ∧
      p ∉ (runOps fetchParse ops s).2 := by
  induction ops generalizing s with
  | nil => simpa [runOps] using h
  | cons op rest ih =>
    cases op with
    | get q =>
      cases hq : cacheLookup s.cache q with
      | some w =>
        have := ih s h
        simpa [runOps, PostPage.get, hq] using this
      | none =>
        have hne : p ≠ q := by
          intro e
          rw [e, hq] at h
          exact Option.noConfusion h
        have h2 : cacheLookup
            (s.insert_cache q (fetchParse q)).cache p = some v := by
          rw [cacheLookup_insert, if_neg hne]
          exact h
        have := ih (s.insert_cache q (fetchParse q)) h2
        simp [runOps, PostPage.get, hq, this.1, this.2, hne]
    | inc =>
      have := ih s.increase_page (by simpa [PostPage.increase_page] using h)
      simpa [runOps] using this
    | dec =>
      have := ih s.decrease_page (by simpa [PostPage.decrease_page] using h)
      simpa [runOps] using this

/-- C1: once a value for page `p` is in the cache, any sequence of `get`
calls and navigation moves leaves the entry for `p` unchanged, never
invokes the Fetcher for `p`, and a later `get(p)` returns exactly the
cached value without fetching or modifying the state. -/
theorem c1_cache_at_most_once (fetchParse : Nat → Option Post)
    (ops : List Op) (s : PostPage) (p : Nat) (v : Option Post)
    (h : cacheLookup s.cache p = some v) :
    cacheLookup (runOps fetchParse ops s).1.cache p = some v ∧
    p ∉ (runOps fetchParse ops s).2 ∧
    PostPage.get fetchParse (runOps fetchParse ops s).1 p =
      (v, (runOps fetchParse ops s).1, false) := by
  obtain ⟨h1, h2⟩ := runOps_preserves_cache fetchParse ops s p v h
  exact ⟨h1, h2, by simp [PostPage.get, h1]⟩

/-- C1 witness: the cache claim evaluated on a state whose cache holds
page 2, over gets of pages 1 and 2 interleaved with navigation. -/
theorem c1_witness :
    cacheLookup (runOps exFetch exOps exPage).1.cache 2 = some (some exPost) ∧
    2 ∉ (runOps exFetch exOps exPage).2 ∧
    PostPage.get exFetch (runOps exFetch exOps exPage).1 2 =
      (some exPost, (runOps exFetch exOps exPage).1, false) :=
  c1_cache_at_most_once exFetch exOps exPage 2 (some exPost) rfl

/-- C6 counterexample: in a document holding a fully derivable block and a
block whose description derivation panics (a linked image without a
source), the whole page extraction panics — the derivable sibling is not
retained — although the same good block alone extracts fine; this refutes
the claim that per-block failure never aborts the page. -/
theorem c6_counterexample :
    Post.postsOf exUser exDocMixed = PRes.panic ∧
    Post.postsOf exUser exDocGood =
      .ok [⟨["hello"], ⟨"u"⟩, 2, "2024-01-01"⟩] :=
  ⟨rfl, rfl⟩

/-- When no block panics, collecting the blocks keeps exactly the
derivable ones, in order. -/
theorem collectBlocks_no_panic (ue : NodeC → Option User) (l : List NodeC)
    (h : ∀ b ∈ l, (blockContent ue b).isPanic = false) :
    collectBlocks ue l =
      .ok (l.filterMap (fun b => okOrNone (blockContent ue b))) := by
  induction l with
  | nil => rfl
  | cons b rest ih =>
    have hb := h b (List.mem_cons_self b rest)
    have hrest := fun x hx => h x (List.mem_cons_of_mem b hx)
    cases hbc : blockContent ue b with
    | panic =>
      rw [hbc] at hb
      simp [PRes.isPanic] at hb
    | ok o =>
      cases o with
      | none =>
        simp [collectBlocks, hbc, ih hrest, okOrNone]
      | some pc =>
        simp [collectBlocks, hbc, ih hrest, okOrNone]

/-- C6 (amended): when no reply block makes extraction panic (no linked
image without a source and no missing floor marker), a block whose author
or date cannot be derived is omitted from the reply list while every other
derivable block is retained, in document order, and the page succeeds. -/
theorem c6_blocks_dropped (ue : NodeC → Option User) (document : Node)
    (h : ∀ b ∈ replyBlocks document, (blockContent ue b).isPanic = false) :
    Post.postsOf ue document =
      .ok ((replyBlocks document).filterMap
        (fun b => okOrNone (blockContent ue b))) ∧
    (∀ b ∈ replyBlocks document, ue b = none →
      okOrNone (blockContent ue b) = none) ∧
    (∀ b ∈ replyBlocks document, try_date_from_html b = none →
      okOrNone (blockContent ue b) = none) := by
  refine ⟨collectBlocks_no_panic ue (replyBlocks document) h, ?_, ?_⟩
  · intro b hbmem hue
    have hb := h b hbmem
    cases hdesc : try_desc_from_html b with
    | panic =>
      rw [show blockContent ue b = PRes.panic by
        simp [blockContent, hdesc]] at hb
      simp [PRes.isPanic] at hb
    | ok o =>
      cases o with
      | none => simp [okOrNone, blockContent, hdesc]
      | some d => simp [okOrNone, blockContent, hdesc, hue]
  · intro b hbmem hdate
    have hb := h b hbmem
    cases hdesc : try_desc_from_html b with
    | panic =>
      rw [show blockContent ue b = PRes.panic by
        simp [blockContent, hdesc]] at hb
      simp [PRes.isPanic] at hb
    | ok o =>
      cases o with
      | none => simp [okOrNone, blockContent, hdesc]
      | some d =>
        cases hue : ue b with
        | none => simp [okOrNone, blockContent, hdesc, hue]
        | some u =>
          cases hfl : try_floor_from_html b with
          | panic =>
            rw [show blockContent ue b = PRes.panic by
              simp [blockContent, hdesc, hue, hfl]] at hb
            simp [PRes.isPanic] at hb
          | ok ofl =>
            cases ofl with
            | none => simp [okOrNone, blockContent, hdesc, hue, hfl]
            | some fl =>
              simp [okOrNone, blockContent, hdesc, hue, hfl, hdate]

/-- C6 witness: the amended claim evaluated on a document holding a
date-less block (dropped) followed by a fully derivable block (kept). -/
theorem c6_witness :
    Post.postsOf exUser exDocDrop =
      .ok ((replyBlocks exDocDrop).filterMap
        (fun b => okOrNone (blockContent exUser b))) ∧
    (∀ b ∈ replyBlocks exDocDrop, exUser b = none →
      okOrNone (blockContent exUser b) = none) ∧
    (∀ b ∈ replyBlocks exDocDrop, try_date_from_html b = none →
      okOrNone (blockContent exUser b) = none) :=
  c6_blocks_dropped exUser exDocDrop (by decide)

/-- A query pair whose key is not bsn leaves the accumulated board id
unchanged. -/
theorem step_board_id (acc : PostPageUrlParameter) (kv : String × String)
    (h : kv.1 ≠ "bsn") :
    (PostPageUrlParameter.step acc kv).board_id = acc.board_id := by
  have h2 : (kv.1 == "bsn") = false := by simpa using h
  unfold PostPageUrlParameter.step
  simp only [h2, Bool.false_eq_true, if_false]
  by_cases h1 : (kv.1 == "snA") = true <;>
    by_cases h3 : (kv.1 == "tnum") = true <;>
      simp [h1, h3]

/-- A query pair whose key is not snA leaves the accumulated thread id
unchanged. -/
theorem step_id (acc : PostPageUrlParameter) (kv : String × String)
    (h : kv.1 ≠ "snA") :
    (PostPageUrlParameter.step acc kv).id = acc.id := by
  have h2 : (kv.1 == "snA") = false := by simpa using h
  unfold PostPageUrlParameter.step
  simp only [h2, Bool.false_eq_true, if_false]
  by_cases h1 : (kv.1 == "bsn") = true <;>
    by_cases h3 : (kv.1 == "tnum") = true <;>
      simp [h1, h3]

/-- A query pair whose tnum value (if it is a tnum pair at all) fails to
parse keeps an accumulated floor of 0 at 0. -/
theorem step_floor_zero (acc : PostPageUrlParameter) (kv : String × String)
    (h0 : acc.floor = 0) (h : kv.1 = "tnum" → parseU16 kv.2 = none) :
    (PostPageUrlParameter.step acc kv).floor = 0 := by
  unfold PostPageUrlParameter.step
  by_cases h1 : (kv.1 == "snA") = true <;>
    by_cases h2 : (kv.1 == "bsn") = true <;>
      by_cases h3 : (kv.1 == "tnum") = true <;>
        simp_all [PostPageUrlParameter.step]

/-- Folding query pairs without a bsn key keeps the board id. -/
theorem foldl_board_id (l : List (String × String))
    (acc : PostPageUrlParameter) (h : ∀ kv ∈ l, kv.1 ≠ "bsn") :
    (l.foldl PostPageUrlParameter.step acc).board_id = acc.board_id := by
  induction l generalizing acc with
  | nil => rfl
  | cons kv rest ih =>
    rw [List.foldl_cons,
      ih _ (fun x hx => h x (List.mem_cons_of_mem kv hx)),
      step_board_id acc kv (h kv (List.mem_cons_self kv rest))]

/-- Folding query pairs without an snA key keeps the thread id. -/
theorem foldl_id (l : List (String × String))
    (acc : PostPageUrlParameter) (h : ∀ kv ∈ l, kv.1 ≠ "snA") :
    (l.foldl PostPageUrlParameter.step acc).id = acc.id := by
  induction l generalizing acc with
  | nil => rfl
  | cons kv rest ih =>
    rw [List.foldl_cons,
      ih _ (fun x hx => h x (List.mem_cons_of_mem kv hx)),
      step_id acc kv (h kv (List.mem_cons_self kv rest))]

/-- Folding query pairs whose tnum values never parse keeps floor 0. -/
theorem foldl_floor_zero (l : List (String × String))
    (acc : PostPageUrlParameter) (h0 : acc.floor = 0)
    (h : ∀ kv ∈ l, kv.1 = "tnum" → parseU16 kv.2 = none) :
    (l.foldl PostPageUrlParameter.step acc).floor = 0 := by
  induction l generalizing acc with
  | nil => exact h0
  | cons kv rest ih =>
    rw [List.foldl_cons]
    exact ih _
      (step_floor_zero acc kv h0 (h kv (List.mem_cons_self kv rest)))
      (fun x hx => h x (List.mem_cons_of_mem kv hx))

/-- C8: parsing URL parameters from a string fails exactly when the URL
parser rejects the string; from a parsed URL it always succeeds, a missing
bsn or snA key defaults to the empty string, a missing or non-numeric tnum
defaults to floor 0, and the query bsn=100, snA=200, tnum=5 yields board
id 100, thread id 200 and floor 5. -/
theorem c8_url_parameter (parseUrl : String → Option UrlV) (s : String)
    (u1 u2 u3 : UrlV)
    (hb : ∀ kv ∈ u1.query, kv.1 ≠ "bsn")
    (hs : ∀ kv ∈ u2.query, kv.1 ≠ "snA")
    (ht : ∀ kv ∈ u3.query, kv.1 = "tnum" → parseU16 kv.2 = none) :
    ((∃ e, PostPageUrlParameter.try_from_string parseUrl s = .error e) ↔
      parseUrl s = none) ∧
    (∀ v, PostPageUrlParameter.try_from_url u1 = .ok v →
      v.board_id = "") ∧
    (∀ v, PostPageUrlParameter.try_from_url u2 = .ok v → v.id = "") ∧
    (∀ v, PostPageUrlParameter.try_from_url u3 = .ok v → v.floor = 0) ∧
    PostPageUrlParameter.try_from_url
        ⟨[("bsn", "100"), ("snA", "200"), ("tnum", "5")]⟩ =
      .ok ⟨"100", "200", 5⟩ := by
  refine ⟨?_, ?_, ?_, ?_, rfl⟩
  · constructor
    · rintro ⟨e, he⟩
      cases hp : parseUrl s with
      | none => rfl
      | some u =>
        rw [show PostPageUrlParameter.try_from_string parseUrl s =
            .ok (u.query.foldl PostPageUrlParameter.step
              PostPageUrlParameter.default) by
          simp [PostPageUrlParameter.try_from_string, hp,
            PostPageUrlParameter.try_from_url]] at he
        exact Except.noConfusion he
    · intro hp
      exact ⟨"invalid url string",
        by simp [PostPageUrlParameter.try_from_string, hp]⟩
  · intro v hv
    simp only [PostPageUrlParameter.try_from_url, Except.ok.injEq] at hv
    rw [← hv]
    exact foldl_board_id u1.query PostPageUrlParameter.default hb
  · intro v hv
    simp only [PostPageUrlParameter.try_from_url, Except.ok.injEq] at hv
    rw [← hv]
    exact foldl_id u2.query PostPageUrlParameter.default hs
  · intro v hv
    simp only [PostPageUrlParameter.try_from_url, Except.ok.injEq] at hv
    rw [← hv]
    exact foldl_floor_zero u3.query PostPageUrlParameter.default rfl ht

/-- C8 witness: the parameter claim evaluated on a rejecting URL parser
and concrete queries missing bsn, missing snA, and carrying a non-numeric
tnum. -/
theorem c8_witness :
    ((∃ e, PostPageUrlParameter.try_from_string exParseNone "x" = .error e) ↔
      exParseNone "x" = none) ∧
    (∀ v, PostPageUrlParameter.try_from_url exNoBsn = .ok v →
      v.board_id = "") ∧
    (∀ v, PostPageUrlParameter.try_from_url exNoSnA = .ok v → v.id = "") ∧
    (∀ v, PostPageUrlParameter.try_from_url exBadTnum = .ok v →
      v.floor = 0) ∧
    PostPageUrlParameter.try_from_url
        ⟨[("bsn", "100"), ("snA", "200"), ("tnum", "5")]⟩ =
      .ok ⟨"100", "200", 5⟩ :=
  c8_url_parameter exParseNone "x" exNoBsn exNoSnA exBadTnum
    (by decide) (by decide) (by decide)

/-- C2 counterexample: a URL whose tnum parameter is present but
non-numeric makes the whole conversion panic (the unchecked unwrap of
`parse()` in `try_last_floor_from_url`) instead of returning a typed
error — refuting the claim that, besides a complete Post, only the three
typed errors are possible outcomes. -/
theorem c2_counterexample :
    postTryFromWebSite exUser exWebBad = PRes.panic := rfl

/-- C2 (amended): provided the document holds at least one reply block, a
tnum parameter (if present) parses as a number, and no reply block makes
block extraction panic, the conversion returns either a complete Post or
one of the three distinct typed errors, with the missing-id, missing-tnum
and missing-title conditions mapped to their respective errors; a
non-numeric tnum, an empty document, or a panicking block panic instead. -/
theorem c2_post_errors (ue : NodeC → Option User) (web : WebSite)
    (top : NodeC) (tops : List NodeC)
    (hblocks : replyBlocks web.document = top :: tops)
    (htnum : ∀ kv ∈ web.url.query, kv.1 = "tnum" →
      (parseU16 kv.2).isSome = true)
    (hposts : (Post.postsOf ue web.document).isPanic = false) :
    (∃ r, postTryFromWebSite ue web = .ok r ∧
      (r = .error errCantGetId ∨ r = .error errCantGetLastFloor ∨
       r = .error "post title invalid" ∨ ∃ q, r = Except.ok q)) ∧
    (try_id_from_url web.url = none →
      postTryFromWebSite ue web = .ok (.error errCantGetId)) ∧
    (∀ i, try_id_from_url web.url = some i →
      try_last_floor_from_url web.url = .ok none →
      postTryFromWebSite ue web = .ok (.error errCantGetLastFloor)) ∧
    (∀ i fl, try_id_from_url web.url = some i →
      try_last_floor_from_url web.url = .ok (some fl) →
      try_title_from_html top = none →
      postTryFromWebSite ue web = .ok (.error "post title invalid")) := by
  have hlf : try_last_floor_from_url web.url ≠ PRes.panic := by
    unfold try_last_floor_from_url
    cases hfind : web.url.query.find? (fun kv => kv.1 == "tnum") with
    | none => simp
    | some kv =>
      have hmem : kv ∈ web.url.query := List.mem_of_find?_eq_some hfind
      have hkey : (kv.1 == "tnum") = true :=
        List.find?_eq_some.mp hfind |>.1
      have hsome : (parseU16 kv.2).isSome = true :=
        htnum kv hmem (by simpa using hkey)
      obtain ⟨n, hn⟩ := Option.isSome_iff_exists.mp hsome
      simp [hn]
  refine ⟨?_, ?_, ?_, ?_⟩
  · cases hid : try_id_from_url web.url with
    | none =>
      refine ⟨.error errCantGetId, ?_, Or.inl rfl⟩
      simp [postTryFromWebSite, hblocks, hid]
    | some i =>
      cases hfl : try_last_floor_from_url web.url with
      | panic => exact absurd hfl hlf
      | ok ofl =>
        cases ofl with
        | none =>
          refine ⟨.error errCantGetLastFloor, ?_, Or.inr (Or.inl rfl)⟩
          simp [postTryFromWebSite, hblocks, hid, hfl]
        | some fl =>
          cases htitle : try_title_from_html top with
          | none =>
            refine ⟨.error "post title invalid", ?_,
              Or.inr (Or.inr (Or.inl rfl))⟩
            simp [postTryFromWebSite, hblocks, hid, hfl, htitle]
          | some title =>
            cases hps : Post.postsOf ue web.document with
            | panic =>
              rw [hps] at hposts
              simp [PRes.isPanic] at hposts
            | ok ps =>
              refine ⟨Except.ok ⟨i, title, ps, fl⟩, ?_,
                Or.inr (Or.inr (Or.inr ⟨_, rfl⟩))⟩
              simp [postTryFromWebSite, hblocks, hid, hfl, htitle, hps]
  · intro hid
    simp [postTryFromWebSite, hblocks, hid]
  · intro i hid hfl
    simp [postTryFromWebSite, hblocks, hid, hfl]
  · intro i fl hid hfl htitle
    simp [postTryFromWebSite, hblocks, hid, hfl, htitle]

/-- C2 witness: the amended claim evaluated on a well-formed URL and a
document holding one fully derivable reply block. -/
theorem c2_witness :
    (∃ r, postTryFromWebSite exUser exWebGood = .ok r ∧
      (r = .error errCantGetId ∨ r = .error errCantGetLastFloor ∨
       r = .error "post title invalid" ∨ ∃ q, r = Except.ok q)) ∧
    (try_id_from_url exWebGood.url = none →
      postTryFromWebSite exUser exWebGood = .ok (.error errCantGetId)) ∧
    (∀ i, try_id_from_url exWebGood.url = some i →
      try_last_floor_from_url exWebGood.url = .ok none →
      postTryFromWebSite exUser exWebGood =
        .ok (.error errCantGetLastFloor)) ∧
    (∀ i fl, try_id_from_url exWebGood.url = some i →
      try_last_floor_from_url exWebGood.url = .ok (some fl) →
      try_title_from_html (exGoodBlock, [exDocGood]) = none →
      postTryFromWebSite exUser exWebGood =
        .ok (.error "post title invalid")) :=
  c2_post_errors exUser exWebGood (exGoodBlock, [exDocGood]) []
    rfl (by decide) rfl

end Bahamut
